import Mathlib

/-!
Verification of the tab-recording extension core (offscreen.js second
revision of MeetRecorderOffscreen, and background.js), shallowly embedded.

A media chunk is modelled by its byte content (a list of byte values) or,
where only sizes matter, by its size.  The chunk accumulator below follows
handleVideoDataAvailable / handleAudioDataAvailable, createVideoChunkBlob /
createAudioChunkBlob and the finalize logic of handleRecordingStop.
-/

namespace TabRec

/-- this.maxChunkSize = 50 * 1024 * 1024 in the MeetRecorderOffscreen
constructor. -/
def maxChunkSize : Nat := 50 * 1024 * 1024

/-- The literal 100 * 1024 * 1024 used by the memory-warning check in
handleVideoDataAvailable. -/
def memoryWarningLimit : Nat := 100 * 1024 * 1024

/-- The per-artifact chunk accumulator: recordedChunks (un-flushed chunks in
arrival order), currentChunkSize (their total size in bytes) and chunkBlobs
(the ordered list of flushed intermediate blobs, each kept as the ordered
list of chunks that the Blob constructor concatenated). -/
structure Acc (α : Type) where
  chunks : List α
  chunkSize : Nat
  blobs : List (List α)
deriving DecidableEq

/-- The accumulator state set up by startTabRecording: empty chunk list,
zero byte counter, no intermediate blobs. -/
def initAcc (α : Type) : Acc α := ⟨[], 0, []⟩

/-- createVideoChunkBlob / createAudioChunkBlob: when the un-flushed chunk
list is non-empty, materialize it as one intermediate blob appended to the
blob list, and reset the chunk list and byte counter. -/
def createChunkBlob {α : Type} (a : Acc α) : Acc α :=
  if a.chunks.isEmpty then a else ⟨[], 0, a.blobs ++ [a.chunks]⟩

/-- handleVideoDataAvailable: push the chunk, add its size to the counter,
flush once the counter reaches maxChunkSize, then signal a memory warning
when the (possibly just reset) counter exceeds memoryWarningLimit.  The
Bool result records whether notifyMemoryWarning was invoked on this call.
The size of a chunk is taken by the parameter sz so the same code can be
run on byte-level chunks (size = length) or size-only chunks (size = id). -/
def handleDataAvailable {α : Type} (sz : α → Nat) (a : Acc α) (d : α) :
    Acc α × Bool :=
  let a1 : Acc α := ⟨a.chunks ++ [d], a.chunkSize + sz d, a.blobs⟩
  let a2 := if maxChunkSize ≤ a1.chunkSize then createChunkBlob a1 else a1
  (a2, decide (memoryWarningLimit < a2.chunkSize))

/-- One arrival step of the accumulator run, also counting emitted memory
warnings. -/
def stepChunk {α : Type} (sz : α → Nat) (p : Acc α × Nat) (d : α) :
    Acc α × Nat :=
  let r := handleDataAvailable sz p.1 d
  (r.1, p.2 + (if r.2 then 1 else 0))

/-- Feed a sequence of chunk arrivals through handleVideoDataAvailable (or
handleAudioDataAvailable), returning the final accumulator and the number
of memory-warning signals emitted. -/
def runChunks {α : Type} (sz : α → Nat) (a : Acc α) (ds : List α) :
    Acc α × Nat :=
  ds.foldl (stepChunk sz) (a, 0)

/-- The finalize step of handleRecordingStop for one artifact kind: first
createVideoChunkBlob (flushing any remaining chunks into a last
intermediate blob), then concatenate the intermediate blobs into one final
blob; if no intermediate blob exists fall back to the raw chunk list, and
with no data at all report none (the code throws for video and stores null
for audio).  The result is the ordered list of chunks whose byte
concatenation is the final blob content. -/
def finalizeChunks {α : Type} (a : Acc α) : Option (List α) :=
  let a2 := createChunkBlob a
  if a2.blobs.isEmpty then
    if a2.chunks.isEmpty then none else some a2.chunks
  else some a2.blobs.flatten

/-- One arrival preserves the accumulated content: intermediate blobs in
order, then un-flushed chunks, gains exactly the new chunk at the end. -/
lemma handleDataAvailable_content {α : Type} (sz : α → Nat) (a : Acc α)
    (d : α) :
    (handleDataAvailable sz a d).1.blobs.flatten ++
        (handleDataAvailable sz a d).1.chunks =
      (a.blobs.flatten ++ a.chunks) ++ [d] := by
  unfold handleDataAvailable createChunkBlob
  by_cases h : maxChunkSize ≤ a.chunkSize + sz d
  · simp [h]
  · simp [h, List.append_assoc]

/-- Running a whole arrival sequence appends exactly that sequence to the
accumulated content. -/
lemma runChunks_content_aux {α : Type} (sz : α → Nat) :
    ∀ (ds : List α) (a : Acc α) (n : Nat),
      (ds.foldl (stepChunk sz) (a, n)).1.blobs.flatten ++
          (ds.foldl (stepChunk sz) (a, n)).1.chunks =
        (a.blobs.flatten ++ a.chunks) ++ ds := by
  intro ds
  induction ds with
  | nil => intro a n; simp
  | cons d ds ih =>
      intro a n
      have hstep : stepChunk sz (a, n) d =
          ((handleDataAvailable sz a d).1,
            n + (if (handleDataAvailable sz a d).2 then 1 else 0)) := rfl
      rw [List.foldl_cons, hstep, ih, handleDataAvailable_content]
      simp

/-- Content of the accumulator after runChunks from the initial state. -/
lemma runChunks_content {α : Type} (sz : α → Nat) (ds : List α) :
    (runChunks sz (initAcc α) ds).1.blobs.flatten ++
        (runChunks sz (initAcc α) ds).1.chunks = ds := by
  have h := runChunks_content_aux sz ds (initAcc α) 0
  simpa [runChunks, initAcc] using h

/-- Finalizing an accumulator whose content is non-empty returns exactly
that content, in order. -/
lemma finalizeChunks_content {α : Type} (a : Acc α)
    (h : a.blobs.flatten ++ a.chunks ≠ []) :
    finalizeChunks a = some (a.blobs.flatten ++ a.chunks) := by
  unfold finalizeChunks createChunkBlob
  by_cases hc : a.chunks.isEmpty
  · have hc2 : a.chunks = [] := List.isEmpty_iff.mp hc
    have hb : ¬ a.blobs.isEmpty := by
      intro hbe
      exact h (by simp [List.isEmpty_iff.mp hbe, hc2])
    simp [hc, hc2, hb]
  · simp [hc]

/-- C1.  For every non-empty sequence of chunk arrivals for an artifact
kind, the finalize step of handleRecordingStop produces a final blob equal
to the concatenation of the flushed intermediate blobs followed by the
remaining un-flushed chunks, which is exactly the arrival sequence in
order: no reordering, loss, or duplication across intermediate-blob
boundaries, and the byte sequence of the final blob is the concatenation
of the arrival bytes. -/
theorem chunk_roundtrip_finalize (ds : List (List Nat)) (h : ds ≠ []) :
    finalizeChunks (runChunks List.length (initAcc (List Nat)) ds).1 =
        some ds ∧
      Option.map List.flatten
          (finalizeChunks (runChunks List.length (initAcc (List Nat)) ds).1) =
        some ds.flatten := by
  have hc := runChunks_content List.length ds
  have hfin := finalizeChunks_content
    (runChunks List.length (initAcc (List Nat)) ds).1 (by rw [hc]; exact h)
  rw [hc] at hfin
  exact ⟨hfin, by rw [hfin]; rfl⟩

/-- Witness for C1 at a concrete arrival sequence of three chunks. -/
theorem chunk_roundtrip_finalize_witness :
    ([[1, 2], [3], [4, 5]] : List (List Nat)) ≠ [] ∧
      finalizeChunks
          (runChunks List.length (initAcc (List Nat)) [[1, 2], [3], [4, 5]]).1 =
        some [[1, 2], [3], [4, 5]] :=
  ⟨by decide,
    (chunk_roundtrip_finalize [[1, 2], [3], [4, 5]] (by decide)).1⟩

set_option maxRecDepth 10000 in
/-- C2 counterexample.  In the 120MB-in-1MB-increments scenario with the
50MB flush threshold, the claim asserts exactly one memory-warning signal;
the code emits none, because handleVideoDataAvailable checks
currentChunkSize against 100MB only after the 50MB flush has reset that
counter, so the warning branch is unreachable in this scenario. -/
theorem accumulator_scenario_counterexample :
    ¬ ((runChunks id (initAcc Nat) (List.replicate 120 (1024 * 1024))).2 = 1) := by
  decide

set_option maxRecDepth 10000 in
/-- C2 amended.  The 120MB-in-1MB-increments scenario with the 50MB flush
threshold produces exactly 2 flushed intermediate blobs of 50 chunks each,
leaves a 20MB remainder of un-flushed chunks, and emits zero
memory-warning signals (the warning check compares the un-flushed byte
counter, already reset by each 50MB flush, against 100MB). -/
theorem accumulator_scenario_amended :
    (runChunks id (initAcc Nat) (List.replicate 120 (1024 * 1024))).1.blobs.length = 2 ∧
      (runChunks id (initAcc Nat) (List.replicate 120 (1024 * 1024))).1.blobs.map
          List.length = [50, 50] ∧
      (runChunks id (initAcc Nat) (List.replicate 120 (1024 * 1024))).1.chunkSize =
        20 * 1024 * 1024 ∧
      (runChunks id (initAcc Nat) (List.replicate 120 (1024 * 1024))).1.chunks.sum =
        20 * 1024 * 1024 ∧
      (runChunks id (initAcc Nat) (List.replicate 120 (1024 * 1024))).2 = 0 := by
  decide

/-- The lifecycle state of a MediaRecorder object. -/
inductive RecState
  | inactive
  | recording
  | paused
deriving DecidableEq

/-- The stream, recorder and audio-context references held by the
MeetRecorderOffscreen instance.  Streams, the destination node and the
audio context are opaque objects identified by a number; a recorder is
identified by its lifecycle state, the only part releaseAllStreams
inspects. -/
structure OffRefs where
  mediaRecorder : Option RecState
  audioRecorder : Option RecState
  currentStream : Option Nat
  audioOnlyStream : Option Nat
  originalTabStream : Option Nat
  originalDisplayStream : Option Nat
  micStream : Option Nat
  destination : Option Nat
  audioContext : Option Nat
deriving DecidableEq

/-- releaseAllStreams.  Step 1 stops each recorder and nulls its reference,
but only when the reference is set and the recorder state is not inactive.
Steps 2 and 3 stop tracks and detach media elements, which touches the
referenced objects but no reference.  Step 4 closes and nulls the audio
context (also nulling the destination) when the context reference is set.
Step 5 unconditionally nulls every stream reference and the destination.
The whole body is wrapped in a try/catch that only logs, so the operation
is total. -/
def releaseAllStreams (s : OffRefs) : OffRefs :=
  let s1 := match s.mediaRecorder with
    | some st => if st = RecState.inactive then s else { s with mediaRecorder := none }
    | none => s
  let s2 := match s1.audioRecorder with
    | some st => if st = RecState.inactive then s1 else { s1 with audioRecorder := none }
    | none => s1
  let s3 := if s2.audioContext.isSome then
      { s2 with audioContext := none, destination := none }
    else s2
  { s3 with
      currentStream := none
      audioOnlyStream := none
      originalTabStream := none
      originalDisplayStream := none
      micStream := none
      destination := none }

/-- A reachable pipeline state right after stopRecording has called
mediaRecorder.stop() and audioRecorder.stop(): both recorder references
are still set but the recorders are already inactive. -/
def releaseEx : OffRefs :=
  { mediaRecorder := some RecState.inactive
    audioRecorder := some RecState.inactive
    currentStream := some 1
    audioOnlyStream := some 2
    originalTabStream := some 3
    originalDisplayStream := none
    micStream := some 4
    destination := some 5
    audioContext := some 6 }

/-- C3 counterexample.  The claim lists mediaRecorder and audioRecorder
among the references that are null after every releaseAllStreams call, but
when a recorder reference is set while the recorder is already inactive
(the normal stopRecording path, which stops both recorders before calling
releaseAllStreams), the reference survives the call. -/
theorem release_streams_counterexample :
    ¬ ((releaseAllStreams releaseEx).mediaRecorder = none) := by
  decide

/-- Shared characterization of releaseAllStreams: idempotence, nulled
stream and context references, and the recorder-reference condition. -/
lemma releaseAllStreams_spec (s : OffRefs) :
    releaseAllStreams (releaseAllStreams s) = releaseAllStreams s ∧
      (releaseAllStreams s).currentStream = none ∧
      (releaseAllStreams s).audioOnlyStream = none ∧
      (releaseAllStreams s).originalTabStream = none ∧
      (releaseAllStreams s).originalDisplayStream = none ∧
      (releaseAllStreams s).micStream = none ∧
      (releaseAllStreams s).destination = none ∧
      (releaseAllStreams s).audioContext = none ∧
      ((releaseAllStreams s).mediaRecorder = none ∨
        s.mediaRecorder = some RecState.inactive) ∧
      ((releaseAllStreams s).audioRecorder = none ∨
        s.audioRecorder = some RecState.inactive) := by
  obtain ⟨mr, ar, cs, ao, ot, od, ms, de, ac⟩ := s
  rcases mr with _ | (_ | _ | _) <;> rcases ar with _ | (_ | _ | _) <;>
    rcases ac with _ | _ <;> simp [releaseAllStreams]

/-- C3 amended.  releaseAllStreams is total (the try/catch body never
throws) and idempotent from any pipeline state, and after each call every
stream and audio-context reference (currentStream, audioOnlyStream,
originalTabStream, originalDisplayStream, micStream, destination,
audioContext) is null; the mediaRecorder and audioRecorder references are
nulled only when the recorder was in a non-inactive state at call time, so
a reference to an already-inactive recorder survives. -/
theorem release_streams_idempotent_nulls (s : OffRefs) :
    releaseAllStreams (releaseAllStreams s) = releaseAllStreams s ∧
      (releaseAllStreams s).currentStream = none ∧
      (releaseAllStreams s).audioOnlyStream = none ∧
      (releaseAllStreams s).originalTabStream = none ∧
      (releaseAllStreams s).originalDisplayStream = none ∧
      (releaseAllStreams s).micStream = none ∧
      (releaseAllStreams s).destination = none ∧
      (releaseAllStreams s).audioContext = none ∧
      ((releaseAllStreams s).mediaRecorder = none ∨
        s.mediaRecorder = some RecState.inactive) ∧
      ((releaseAllStreams s).audioRecorder = none ∨
        s.audioRecorder = some RecState.inactive) :=
  releaseAllStreams_spec s

/-- The recordingData object assembled by handleRecordingStop.  Object
URLs are opaque handles; url is an Option so the absent / invalid case of
handleRecordingComplete can be expressed. -/
structure RecordingData where
  url : Option Nat
  size : Nat
  duration : ℚ
  audioUrl : Option Nat
  audioSize : Nat
deriving DecidableEq

/-- The runtime messages the offscreen document sends upward that matter
to the claims. -/
inductive Msg
  | recordingError (e : String)
  | micAccessFailed (e : String)
  | memoryWarning (m : String)
  | allStreamsReleased (m : String)
  | recordingComplete (d : RecordingData)
deriving DecidableEq

/-- The full MeetRecorderOffscreen instance state used by the error and
stop paths: the object references, the recording flags and timing fields,
and one chunk accumulator per artifact kind (byte-level chunks). -/
structure OffState where
  refs : OffRefs
  isRecording : Bool
  isPaused : Bool
  recordingStartTime : Option Nat
  totalPausedTime : Nat
  lastPauseTime : Option Nat
  videoAcc : Acc (List Nat)
  audioAcc : Acc (List Nat)
deriving DecidableEq

/-- The mediaRecorder.onerror handler: releaseAllStreams (which sends the
allStreamsReleased confirmation) followed by notifyError, which sends a
recordingError message prefixed with "Recording error: ".  Nothing else is
touched: flags, timing fields and both accumulators stay as they are. -/
def onVideoRecorderError (s : OffState) (e : String) : OffState × List Msg :=
  ({ s with refs := releaseAllStreams s.refs },
    [Msg.allStreamsReleased
        "ALL video and audio streams aggressively released - normal playback should fully resume",
      Msg.recordingError ("Recording error: " ++ e)])

/-- The audioRecorder.onerror handler: it only logs the error to the
console; no teardown, no state change, no message upward. -/
def onAudioRecorderError (s : OffState) (_e : String) : OffState × List Msg :=
  (s, [])

/-- cleanup: releaseAllStreams, reset the recording flags and timing
fields, clear the un-flushed chunk lists and counters of both
accumulators, but keep the flushed intermediate blobs (the code comment
reads: clear chunks but keep blobs for potential use). -/
def cleanup (s : OffState) : OffState :=
  { refs := releaseAllStreams s.refs
    isRecording := false
    isPaused := false
    recordingStartTime := none
    totalPausedTime := 0
    lastPauseTime := none
    videoAcc := ⟨[], 0, s.videoAcc.blobs⟩
    audioAcc := ⟨[], 0, s.audioAcc.blobs⟩ }

/-- A mid-recording pipeline state holding live stream references and one
already-flushed intermediate video blob. -/
def offErrEx : OffState :=
  { refs :=
      { mediaRecorder := some RecState.recording
        audioRecorder := some RecState.recording
        currentStream := some 1
        audioOnlyStream := some 2
        originalTabStream := some 3
        originalDisplayStream := none
        micStream := some 4
        destination := some 5
        audioContext := some 6 }
    isRecording := true
    isPaused := false
    recordingStartTime := some 1000
    totalPausedTime := 0
    lastPauseTime := none
    videoAcc := ⟨[[7]], 1, [[[1, 2], [3]]]⟩
    audioAcc := ⟨[[8]], 1, []⟩ }

/-- C5 counterexample.  At a concrete mid-recording state: an internal
error of the audio-only recorder does not tear the stream set down (the
tab stream reference is untouched and no error is reported upward), and an
internal error of the video recorder does not discard the intermediate
chunk blobs already flushed to the accumulator. -/
theorem encoder_error_counterexample :
    (onAudioRecorderError offErrEx "boom").1.refs.currentStream = some 1 ∧
      (onAudioRecorderError offErrEx "boom").2 = [] ∧
      (onVideoRecorderError offErrEx "boom").1.videoAcc.blobs ≠ [] := by
  decide

/-- C5 amended.  Only an internal error of the combined video+audio
recorder tears the stream set down (all stream and audio-context
references released) and reports a recording error upward; an error of the
audio-only recorder is logged only, changing nothing and reporting
nothing; and in both cases the intermediate blobs already flushed to the
accumulators are retained, not discarded (cleanup likewise keeps them). -/
theorem encoder_error_behavior (s : OffState) (e : String) :
    (onVideoRecorderError s e).1.refs.currentStream = none ∧
      (onVideoRecorderError s e).1.refs.audioOnlyStream = none ∧
      (onVideoRecorderError s e).1.refs.originalTabStream = none ∧
      (onVideoRecorderError s e).1.refs.micStream = none ∧
      (onVideoRecorderError s e).1.refs.destination = none ∧
      (onVideoRecorderError s e).1.refs.audioContext = none ∧
      Msg.recordingError ("Recording error: " ++ e) ∈ (onVideoRecorderError s e).2 ∧
      (onVideoRecorderError s e).1.videoAcc.blobs = s.videoAcc.blobs ∧
      (onVideoRecorderError s e).1.audioAcc.blobs = s.audioAcc.blobs ∧
      onAudioRecorderError s e = (s, []) ∧
      (cleanup s).videoAcc.blobs = s.videoAcc.blobs ∧
      (cleanup s).audioAcc.blobs = s.audioAcc.blobs := by
  have hrel := releaseAllStreams_spec s.refs
  refine ⟨?_, ?_, ?_, ?_, ?_, ?_, ?_, rfl, rfl, rfl, rfl, rfl⟩ <;>
    simp [onVideoRecorderError]
  · exact hrel.2.1
  · exact hrel.2.2.1
  · exact hrel.2.2.2.1
  · exact hrel.2.2.2.2.2.1
  · exact hrel.2.2.2.2.2.2.1
  · exact hrel.2.2.2.2.2.2.2.1

/-- The recording options a start request carries (background.js). -/
structure RecOptions where
  recordingType : Option String
  videoQuality : Option String
  includeDeviceAudio : Bool
  includeMicrophone : Bool
  tabId : Option Nat
deriving DecidableEq

/-- The background service worker recordingState object. -/
structure BgState where
  isRecording : Bool
  isPaused : Bool
  recordingType : Option String
  currentTabId : Option Nat
  recordingStartTime : Option Nat
  recordingData : Option RecordingData
deriving DecidableEq

/-- The initial recordingState of the background worker. -/
def bgInit : BgState :=
  { isRecording := false
    isPaused := false
    recordingType := none
    currentTabId := none
    recordingStartTime := none
    recordingData := none }

/-- resetRecordingState: clear every field except recordingData, which is
kept. -/
def resetRecordingState (s : BgState) : BgState :=
  { isRecording := false
    isPaused := false
    recordingType := none
    currentTabId := none
    recordingStartTime := none
    recordingData := s.recordingData }

/-- The outcome of the synchronous first phase of handleStartRecording. -/
inductive StartOutcome
  | rejected (error : String)
  | proceeding
deriving DecidableEq

/-- The first phase of handleStartRecording, up to and including the
provisional recordingState assignment that precedes the await on
startTabRecording: reject when recordingState.isRecording is already true
(state untouched), reject on failed authentication or a missing tab id
(state untouched), otherwise overwrite recordingState with the provisional
object whose isRecording is still false and whose recordingStartTime is
still null. -/
def startPhase1 (s : BgState) (o : RecOptions) (authOk : Bool) :
    StartOutcome × BgState :=
  if s.isRecording then
    (StartOutcome.rejected "Recording already in progress", s)
  else if authOk = false then
    (StartOutcome.rejected "Authentication required. Please login first.", s)
  else if o.tabId = none then
    (StartOutcome.rejected "No tab specified for recording. Please try again.",
      s)
  else
    (StartOutcome.proceeding,
      { isRecording := false
        isPaused := false
        recordingType := o.recordingType
        currentTabId := o.tabId
        recordingStartTime := none
        recordingData := none })

/-- The second phase of handleStartRecording, run after the offscreen
start resolves: on success set isRecording and recordingStartTime, on
failure reset the state. -/
def startFinish (s : BgState) (ok : Bool) (now : Nat) : BgState :=
  if ok then { s with isRecording := true, recordingStartTime := some now }
  else resetRecordingState s

/-- Concrete start options targeting tab 5. -/
def optsEx : RecOptions :=
  { recordingType := some "tab"
    videoQuality := some "1080p"
    includeDeviceAudio := true
    includeMicrophone := false
    tabId := some 5 }

/-- Concrete second start options targeting tab 9. -/
def optsEx2 : RecOptions :=
  { recordingType := some "tab"
    videoQuality := some "720p"
    includeDeviceAudio := true
    includeMicrophone := true
    tabId := some 9 }

/-- C4 counterexample.  While a first start request is still in its
Starting phase (after the provisional state assignment, before the
offscreen start resolves), recordingState.isRecording is still false, so a
second start request passes the guard and proceeds instead of being
rejected with the AlreadyRecording error. -/
theorem double_start_counterexample :
    (startPhase1 (startPhase1 bgInit optsEx true).2 optsEx2 true).1 =
      StartOutcome.proceeding := by
  decide

/-- C4 amended.  A start request made while recordingState.isRecording is
true is rejected with the Recording-already-in-progress error and leaves
the whole state, in particular isRecording, currentTabId and
recordingStartTime, unchanged; while a first start is still in the
Starting phase, however, isRecording is still false and a second start is
not rejected by this guard. -/
theorem start_rejected_when_recording (s : BgState) (o : RecOptions)
    (authOk : Bool) (h : s.isRecording = true) :
    startPhase1 s o authOk =
        (StartOutcome.rejected "Recording already in progress", s) ∧
      (startPhase1 s o authOk).2.isRecording = s.isRecording ∧
      (startPhase1 s o authOk).2.currentTabId = s.currentTabId ∧
      (startPhase1 s o authOk).2.recordingStartTime = s.recordingStartTime := by
  simp [startPhase1, h]

/-- Witness for C4 at the state an actually started recording leaves
behind. -/
theorem start_rejected_when_recording_witness :
    (startFinish (startPhase1 bgInit optsEx true).2 true 2000).isRecording =
        true ∧
      startPhase1 (startFinish (startPhase1 bgInit optsEx true).2 true 2000)
          optsEx2 true =
        (StartOutcome.rejected "Recording already in progress",
          startFinish (startPhase1 bgInit optsEx true).2 true 2000) :=
  ⟨by decide,
    (start_rejected_when_recording
      (startFinish (startPhase1 bgInit optsEx true).2 true 2000) optsEx2 true
      (by decide)).1⟩

/-- The nodes of the audio graph built by
createTabCombinedStreamWithAudio: the tab-audio source, its two gain
nodes, the mix destination (audioContext.createMediaStreamDestination),
the microphone source and its gain node, and the audio context output
(audioContext.destination, the physical speakers). -/
inductive AudioNode
  | tabSource
  | recordingGain
  | passthroughGain
  | micSource
  | micGain
  | mixDestination
  | speakerOut
deriving DecidableEq, Fintype

/-- The connect calls made for tab audio: tabAudioSource to recordingGain
and passthroughGain, recordingGain to the mix destination, passthroughGain
to audioContext.destination (the speakers). -/
def tabAudioEdges : List (AudioNode × AudioNode) :=
  [(AudioNode.tabSource, AudioNode.recordingGain),
    (AudioNode.tabSource, AudioNode.passthroughGain),
    (AudioNode.recordingGain, AudioNode.mixDestination),
    (AudioNode.passthroughGain, AudioNode.speakerOut)]

/-- The connect calls made for the microphone: micAudioSource to micGain,
micGain to the mix destination.  No connect ever targets
audioContext.destination from the microphone path. -/
def micEdges : List (AudioNode × AudioNode) :=
  [(AudioNode.micSource, AudioNode.micGain),
    (AudioNode.micGain, AudioNode.mixDestination)]

/-- The result of createTabCombinedStreamWithAudio: the audio-graph edges
built, whether the call returned streams (rather than throwing), the
messages sent upward, and whether the microphone was mixed in. -/
structure GraphResult where
  edges : List (AudioNode × AudioNode)
  success : Bool
  msgs : List Msg
  micMixed : Bool
deriving DecidableEq

/-- createTabCombinedStreamWithAudio, after the tab stream was acquired:
wire the tab-audio dual-gain paths when device audio was requested and the
tab stream has an audio track; return directly when the microphone was not
requested; otherwise try the microphone, and on getUserMedia failure send
microphoneAccessFailed and continue without it.  micFail carries the error
message of a failed microphone request, or none when the microphone was
granted. -/
def createTabCombinedStreamWithAudio (o : RecOptions) (tabHasAudio : Bool)
    (micFail : Option String) : GraphResult :=
  let base := if o.includeDeviceAudio && tabHasAudio then tabAudioEdges else []
  if o.includeMicrophone = false then
    { edges := base, success := true, msgs := [], micMixed := false }
  else
    match micFail with
    | none =>
        { edges := base ++ micEdges, success := true, msgs := [],
          micMixed := true }
    | some e =>
        { edges := base, success := true, msgs := [Msg.micAccessFailed e],
          micMixed := false }

/-- The background handleMicrophoneAccessFailed handler: the stored
currentRecordingOptions, when present, are rewritten with includeMicrophone
set to false; recordingState is not touched. -/
def handleMicrophoneAccessFailed (s : BgState) (o : Option RecOptions) :
    BgState × Option RecOptions :=
  (s, o.map (fun oo => { oo with includeMicrophone := false }))

/-- C6.  Microphone acquisition failure is non-fatal: with the microphone
requested but failing, createTabCombinedStreamWithAudio still succeeds
with tab-only capture, emits exactly the microphoneAccessFailed signal and
mixes no microphone audio; the background handler downgrades the stored
options to includeMicrophone = false and leaves recordingState untouched,
so isRecording keeps whatever value it had (in particular it stays true
for a live recording). -/
theorem microphone_failure_nonfatal (o : RecOptions) (tabHasAudio : Bool)
    (e : String) (s : BgState) (opts : RecOptions)
    (h : o.includeMicrophone = true) :
    (createTabCombinedStreamWithAudio o tabHasAudio (some e)).success =
        true ∧
      (createTabCombinedStreamWithAudio o tabHasAudio (some e)).msgs =
        [Msg.micAccessFailed e] ∧
      (createTabCombinedStreamWithAudio o tabHasAudio (some e)).micMixed =
        false ∧
      (handleMicrophoneAccessFailed s (some opts)).1 = s ∧
      (handleMicrophoneAccessFailed s (some opts)).1.isRecording =
        s.isRecording ∧
      (handleMicrophoneAccessFailed s (some opts)).2 =
        some { opts with includeMicrophone := false } := by
  simp [createTabCombinedStreamWithAudio, handleMicrophoneAccessFailed, h]

/-- Witness for C6 at concrete options requesting the microphone, during a
live recording on tab 5. -/
theorem microphone_failure_nonfatal_witness :
    optsEx2.includeMicrophone = true ∧
      ((createTabCombinedStreamWithAudio optsEx2 true
            (some "Permission denied")).success = true ∧
        (createTabCombinedStreamWithAudio optsEx2 true
            (some "Permission denied")).msgs =
          [Msg.micAccessFailed "Permission denied"] ∧
        (createTabCombinedStreamWithAudio optsEx2 true
            (some "Permission denied")).micMixed = false ∧
        (handleMicrophoneAccessFailed
            (startFinish (startPhase1 bgInit optsEx2 true).2 true 2000)
            (some optsEx2)).1 =
          startFinish (startPhase1 bgInit optsEx2 true).2 true 2000 ∧
        (handleMicrophoneAccessFailed
            (startFinish (startPhase1 bgInit optsEx2 true).2 true 2000)
            (some optsEx2)).1.isRecording =
          (startFinish (startPhase1 bgInit optsEx2 true).2 true 2000).isRecording ∧
        (handleMicrophoneAccessFailed
            (startFinish (startPhase1 bgInit optsEx2 true).2 true 2000)
            (some optsEx2)).2 =
          some { optsEx2 with includeMicrophone := false }) :=
  ⟨by decide,
    microphone_failure_nonfatal optsEx2 true "Permission denied"
      (startFinish (startPhase1 bgInit optsEx2 true).2 true 2000) optsEx2
      (by decide)⟩

/-- Audio flows from node a to node b when a chain of connect calls links
them. -/
def Reaches (E : List (AudioNode × AudioNode)) (a b : AudioNode) : Prop :=
  Relation.ReflTransGen (fun x y => (x, y) ∈ E) a b

/-- A Bool-valued node set closed under the edges of a graph contains
every node reachable from a member. -/
lemma reaches_closed (E : List (AudioNode × AudioNode))
    (S : AudioNode → Bool)
    (hcl : ∀ a b, (a, b) ∈ E → S a = true → S b = true) :
    ∀ a b, Reaches E a b → S a = true → S b = true := by
  intro a b h
  induction h with
  | refl => exact id
  | tail hab hstep ih => intro ha; exact hcl _ _ hstep (ih ha)

/-- The nodes the microphone signal can ever occupy. -/
def micSide (n : AudioNode) : Bool :=
  match n with
  | AudioNode.micSource => true
  | AudioNode.micGain => true
  | AudioNode.mixDestination => true
  | _ => false

/-- Every edge of a built graph comes from the tab-audio wiring or the
microphone wiring. -/
lemma graph_edges_sub (o : RecOptions) (tabHasAudio : Bool)
    (micFail : Option String) :
    ∀ p, p ∈ (createTabCombinedStreamWithAudio o tabHasAudio micFail).edges →
      p ∈ tabAudioEdges ∨ p ∈ micEdges := by
  intro p hp
  obtain ⟨rt, vq, da, im, ti⟩ := o
  rcases da <;> rcases im <;> rcases tabHasAudio <;> rcases micFail with _ | e <;>
    simp [createTabCombinedStreamWithAudio, tabAudioEdges, micEdges]
      at hp ⊢ <;>
    tauto

/-- micSide is closed under both wiring lists. -/
lemma micSide_closed_edges :
    ∀ a b, ((a, b) ∈ tabAudioEdges ∨ (a, b) ∈ micEdges) →
      micSide a = true → micSide b = true := by
  decide

/-- The only wiring out of the microphone source targets its gain node. -/
lemma micSource_out :
    ∀ b, ((AudioNode.micSource, b) ∈ tabAudioEdges ∨
        (AudioNode.micSource, b) ∈ micEdges) → b = AudioNode.micGain := by
  decide

/-- C8.  In every recording in which the microphone is requested and
granted, the graph built by createTabCombinedStreamWithAudio routes the
microphone only into the mix destination through its gain node: the only
connect out of the microphone source targets its gain node, the gain node
connects to the mix destination, the microphone signal reaches the mix
destination, and no chain of connects carries it to the audio context
speaker output; tab audio, when device audio is requested and the tab
stream carries an audio track, reaches both the mix destination and the
speaker output. -/
theorem mic_routing_no_speaker_path (o : RecOptions) (tabHasAudio : Bool)
    (h : o.includeMicrophone = true) :
    (∀ b, (AudioNode.micSource, b) ∈
        (createTabCombinedStreamWithAudio o tabHasAudio none).edges →
      b = AudioNode.micGain) ∧
      (AudioNode.micGain, AudioNode.mixDestination) ∈
        (createTabCombinedStreamWithAudio o tabHasAudio none).edges ∧
      Reaches (createTabCombinedStreamWithAudio o tabHasAudio none).edges
        AudioNode.micSource AudioNode.mixDestination ∧
      ¬ Reaches (createTabCombinedStreamWithAudio o tabHasAudio none).edges
          AudioNode.micSource AudioNode.speakerOut ∧
      (o.includeDeviceAudio = true → tabHasAudio = true →
        Reaches (createTabCombinedStreamWithAudio o tabHasAudio none).edges
            AudioNode.tabSource AudioNode.mixDestination ∧
          Reaches (createTabCombinedStreamWithAudio o tabHasAudio none).edges
            AudioNode.tabSource AudioNode.speakerOut) := by
  have hcl : ∀ a b,
      (a, b) ∈ (createTabCombinedStreamWithAudio o tabHasAudio none).edges →
        micSide a = true → micSide b = true := by
    intro a b hab
    exact micSide_closed_edges a b (graph_edges_sub o tabHasAudio none _ hab)
  have hmem : ∀ x y,
      (x, y) ∈ micEdges →
        (x, y) ∈ (createTabCombinedStreamWithAudio o tabHasAudio none).edges := by
    intro x y hxy
    simp [createTabCombinedStreamWithAudio, h]
    exact Or.inr hxy
  refine ⟨?_, ?_, ?_, ?_, ?_⟩
  · intro b hb
    exact micSource_out b (graph_edges_sub o tabHasAudio none _ hb)
  · exact hmem _ _ (by simp [micEdges])
  · exact Relation.ReflTransGen.tail
      (Relation.ReflTransGen.tail Relation.ReflTransGen.refl
        (hmem AudioNode.micSource AudioNode.micGain (by simp [micEdges])))
      (hmem AudioNode.micGain AudioNode.mixDestination (by simp [micEdges]))
  · intro hr
    have := reaches_closed _ micSide hcl _ _ hr (by decide)
    simp [micSide] at this
  · intro hda hta
    have htab : ∀ x y,
        (x, y) ∈ tabAudioEdges →
          (x, y) ∈ (createTabCombinedStreamWithAudio o tabHasAudio none).edges := by
      intro x y hxy
      simp [createTabCombinedStreamWithAudio, h, hda, hta]
      exact Or.inl hxy
    constructor
    · exact Relation.ReflTransGen.tail
        (Relation.ReflTransGen.tail Relation.ReflTransGen.refl
          (htab AudioNode.tabSource AudioNode.recordingGain
            (by simp [tabAudioEdges])))
        (htab AudioNode.recordingGain AudioNode.mixDestination
          (by simp [tabAudioEdges]))
    · exact Relation.ReflTransGen.tail
        (Relation.ReflTransGen.tail Relation.ReflTransGen.refl
          (htab AudioNode.tabSource AudioNode.passthroughGain
            (by simp [tabAudioEdges])))
        (htab AudioNode.passthroughGain AudioNode.speakerOut
          (by simp [tabAudioEdges]))

/-- Witness for C8 at concrete options with device audio and microphone
both requested and granted, on a tab stream with an audio track. -/
theorem mic_routing_no_speaker_path_witness :
    optsEx2.includeMicrophone = true ∧
      ¬ Reaches (createTabCombinedStreamWithAudio optsEx2 true none).edges
          AudioNode.micSource AudioNode.speakerOut :=
  ⟨by decide, (mic_routing_no_speaker_path optsEx2 true (by decide)).2.2.2.1⟩

/-- The recordingData assembly of handleRecordingStop: finalize the video
accumulator (none models the thrown no-video-data error), finalize the
audio accumulator (none is tolerated and yields a null audio part), and
compute the duration from wall-clock timestamps as
(Date.now() - recordingStartTime - totalPausedTime) / 1000.  Object URLs
are opaque handles. -/
def computeRecordingData (videoAcc audioAcc : Acc (List Nat))
    (nowMs startMs pausedMs : Nat) : Option RecordingData :=
  match finalizeChunks videoAcc with
  | none => none
  | some vid =>
      let aud := finalizeChunks audioAcc
      some
        { url := some 1
          size := vid.flatten.length
          duration := ((nowMs : ℚ) - (startMs : ℚ) - (pausedMs : ℚ)) / 1000
          audioUrl := match aud with | some _ => some 2 | none => none
          audioSize := match aud with | some l => l.flatten.length | none => 0 }

/-- C7.  Every recordingData produced by handleRecordingStop carries a
duration equal to (stop wall-clock timestamp minus recordingStartTime
minus totalPausedTime) divided by 1000 — computed from the wall-clock
inputs, not from container metadata — and hence within the one-second
encoder-tick tolerance of that value. -/
theorem recording_duration_formula (vAcc aAcc : Acc (List Nat))
    (nowMs startMs pausedMs : Nat) (d : RecordingData)
    (h : computeRecordingData vAcc aAcc nowMs startMs pausedMs = some d) :
    d.duration = ((nowMs : ℚ) - (startMs : ℚ) - (pausedMs : ℚ)) / 1000 ∧
      |d.duration - ((nowMs : ℚ) - (startMs : ℚ) - (pausedMs : ℚ)) / 1000| ≤
        1 := by
  cases hv : finalizeChunks vAcc with
  | none => simp [computeRecordingData, hv] at h
  | some vid =>
      simp [computeRecordingData, hv] at h
      constructor
      · rw [← h]
      · rw [← h]
        simp

/-- A one-chunk video accumulator. -/
def vAccEx : Acc (List Nat) := ⟨[[9]], 1, []⟩

/-- The recordingData expected from vAccEx with stop at 5000ms, start at
1000ms and no paused time. -/
def rdEx7 : RecordingData :=
  { url := some 1
    size := 1
    duration := 4
    audioUrl := none
    audioSize := 0 }

/-- Witness for C7 at a concrete accumulator pair and concrete
timestamps. -/
theorem recording_duration_formula_witness :
    computeRecordingData vAccEx (initAcc (List Nat)) 5000 1000 0 =
        some rdEx7 ∧
      (rdEx7.duration = ((5000 : ℚ) - (1000 : ℚ) - (0 : ℚ)) / 1000 ∧
        |rdEx7.duration - ((5000 : ℚ) - (1000 : ℚ) - (0 : ℚ)) / 1000| ≤ 1) := by
  have heq : computeRecordingData vAccEx (initAcc (List Nat)) 5000 1000 0 =
      some rdEx7 := by
    simp [computeRecordingData, finalizeChunks, createChunkBlob, vAccEx,
      initAcc, rdEx7]
    norm_num
  exact ⟨heq,
    recording_duration_formula vAccEx (initAcc (List Nat)) 5000 1000 0 rdEx7
      heq⟩

/-- A JavaScript value as it can arise from indexing the quality tables:
a constraints object literal with width and height, a numeric bitrate, a
member inherited from Object.prototype (a function, or the __proto__
object — always truthy), or undefined. -/
inductive JsValue
  | dims (w h : Nat)
  | rate (n : Nat)
  | protoMember (name : String)
  | undef
deriving DecidableEq

/-- The property keys every plain object literal inherits from
Object.prototype; indexing an object literal with one of these yields the
inherited member, not undefined. -/
def objectProtoKeys : List String :=
  ["constructor", "hasOwnProperty", "isPrototypeOf", "propertyIsEnumerable",
    "toLocaleString", "toString", "valueOf", "__defineGetter__",
    "__defineSetter__", "__lookupGetter__", "__lookupSetter__", "__proto__"]

/-- JavaScript truthiness of the values above: objects and functions are
truthy, the number 0 is falsy, undefined is falsy. -/
def truthy : JsValue → Bool
  | JsValue.dims _ _ => true
  | JsValue.rate n => n != 0
  | JsValue.protoMember _ => true
  | JsValue.undef => false

/-- The JavaScript logical-or: the left value when truthy, otherwise the
right. -/
def jsOr (a b : JsValue) : JsValue := if truthy a then a else b

/-- JavaScript property access on an object literal: an own property
first, then the Object.prototype chain, then undefined. -/
def jsIndex (own : List (String × JsValue)) (key : String) : JsValue :=
  match own.lookup key with
  | some v => v
  | none =>
      if key ∈ objectProtoKeys then JsValue.protoMember key else JsValue.undef

/-- The key an index expression uses: an absent quality (undefined) is
coerced to the string undefined, which is no own or prototype key. -/
def qualityKey (q : Option String) : String :=
  match q with
  | some s => s
  | none => "undefined"

/-- The own properties of the constraints object literal of
getVideoConstraints. -/
def constraintsTable : List (String × JsValue) :=
  [("720p", JsValue.dims 1280 720), ("1080p", JsValue.dims 1920 1080),
    ("4k", JsValue.dims 3840 2160)]

/-- The own properties of the bitrates object literal of
getVideoBitrate. -/
def bitratesTable : List (String × JsValue) :=
  [("720p", JsValue.rate 2500000), ("1080p", JsValue.rate 5000000),
    ("4k", JsValue.rate 15000000)]

/-- getVideoConstraints: the expression
constraints[quality] || constraints[the 1080p key], with JavaScript
property access and truthiness. -/
def getVideoConstraints (q : Option String) : JsValue :=
  jsOr (jsIndex constraintsTable (qualityKey q))
    (jsIndex constraintsTable "1080p")

/-- getVideoBitrate: the expression
bitrates[quality] || bitrates[the 1080p key], with JavaScript property
access and truthiness. -/
def getVideoBitrate (q : Option String) : JsValue :=
  jsOr (jsIndex bitratesTable (qualityKey q)) (jsIndex bitratesTable "1080p")

/-- C9 counterexample.  The quality value constructor lies outside the
720p / 1080p / 4k enum, yet neither lookup falls back to the 1080p entry:
the index expression finds the truthy member inherited from
Object.prototype and returns it, so the claimed silent fallback fails. -/
theorem quality_prototype_counterexample :
    getVideoConstraints (some "constructor") =
        JsValue.protoMember "constructor" ∧
      ¬ getVideoConstraints (some "constructor") = JsValue.dims 1920 1080 ∧
      getVideoBitrate (some "constructor") =
        JsValue.protoMember "constructor" ∧
      ¬ getVideoBitrate (some "constructor") = JsValue.rate 5000000 := by
  decide

/-- C9 amended.  For any videoQuality value outside the 720p / 1080p / 4k
enum that is not an Object.prototype property key — including an absent
one — both lookups silently fall back to the 1080p settings, 1920 by 1080
constraints and a 5000000 bps bitrate, and recording start never fails on
such a value since the lookups are total; for a quality value naming an
Object.prototype member, such as constructor or __proto__, the lookups
instead return that truthy inherited member and do not fall back. -/
theorem unknown_quality_fallback (q : Option String)
    (h : ∀ s, q = some s →
      s ≠ "720p" ∧ s ≠ "1080p" ∧ s ≠ "4k" ∧ ¬ s ∈ objectProtoKeys) :
    (getVideoConstraints q = JsValue.dims 1920 1080 ∧
        getVideoBitrate q = JsValue.rate 5000000) ∧
      ∀ s ∈ objectProtoKeys,
        getVideoConstraints (some s) = JsValue.protoMember s ∧
          getVideoBitrate (some s) = JsValue.protoMember s := by
  refine ⟨?_, by decide⟩
  cases q with
  | none =>
      simp [getVideoConstraints, getVideoBitrate, qualityKey, jsIndex, jsOr,
        truthy, constraintsTable, bitratesTable, objectProtoKeys, List.lookup]
  | some s =>
      obtain ⟨h7, h10, h4, hp⟩ := h s rfl
      have b7 : (s == "720p") = false := beq_eq_false_iff_ne.mpr h7
      have b10 : (s == "1080p") = false := beq_eq_false_iff_ne.mpr h10
      have b4 : (s == "4k") = false := beq_eq_false_iff_ne.mpr h4
      simp [getVideoConstraints, getVideoBitrate, qualityKey, jsIndex, jsOr,
        truthy, constraintsTable, bitratesTable, List.lookup, b7, b10, b4, hp]

/-- Witness for C9 at the unlisted, non-prototype quality value 480p. -/
theorem unknown_quality_fallback_witness :
    (getVideoConstraints (some "480p") = JsValue.dims 1920 1080 ∧
        getVideoBitrate (some "480p") = JsValue.rate 5000000) ∧
      ∀ s ∈ objectProtoKeys,
        getVideoConstraints (some s) = JsValue.protoMember s ∧
          getVideoBitrate (some s) = JsValue.protoMember s :=
  unknown_quality_fallback (some "480p")
    (by
      intro s hs
      injection hs with h
      subst h
      decide)

/-- The response object of the stopRecording message round trip. -/
structure StopResponse where
  success : Bool
  message : Option String
  error : Option String
  recordingData : Option RecordingData
deriving DecidableEq

/-- The offscreen stopRecording method: refuse without a recording in
progress or without both recorder references; otherwise add the final
pause segment to totalPausedTime when currently paused, stop both
recorders (their state becomes inactive), release all streams, and answer
with success and a message only — the response carries no recordingData
field, since the artifact is assembled later by the asynchronous onstop
handler. -/
def stopRecordingOffscreen (s : OffState) (nowMs : Nat) :
    StopResponse × OffState :=
  if s.isRecording = false ∨ s.refs.mediaRecorder = none ∨
      s.refs.audioRecorder = none then
    ({ success := false
       message := none
       error := some "No recording in progress"
       recordingData := none }, s)
  else
    let newPaused := match s.lastPauseTime with
      | some t =>
          if s.isPaused then s.totalPausedTime + (nowMs - t)
          else s.totalPausedTime
      | none => s.totalPausedTime
    let refs1 :=
      { s.refs with
          mediaRecorder := s.refs.mediaRecorder.map (fun _ => RecState.inactive)
          audioRecorder := s.refs.audioRecorder.map
            (fun _ => RecState.inactive) }
    ({ success := true
       message := some "Recording stopped"
       error := none
       recordingData := none },
      { s with totalPausedTime := newPaused, refs := releaseAllStreams refs1 })

/-- The background handleStopRecording: refuse without a recording in
progress; on a successful offscreen response, store
response.recordingData into recordingState.recordingData (the offscreen
success response carries none there), reset the state (which keeps that
recordingData), and reply with the same recordingData. -/
def handleStopRecordingBg (bg : BgState) (resp : StopResponse) :
    BgState × StopResponse :=
  if bg.isRecording = false then
    (bg,
      { success := false
        message := none
        error := some "No recording in progress"
        recordingData := none })
  else if resp.success then
    (resetRecordingState { bg with recordingData := resp.recordingData },
      { success := true
        message := some "Recording stopped"
        error := none
        recordingData := resp.recordingData })
  else
    (bg,
      { success := false
        message := none
        error := resp.error
        recordingData := none })

/-- The background handleRecordingComplete: with absent or url-less
recordingData the error path resets the state; with valid data the
authoritative recordingState.recordingData is populated and the recording
flags cleared. -/
def handleRecordingCompleteBg (bg : BgState) (d : Option RecordingData) :
    BgState :=
  match d with
  | none => resetRecordingState bg
  | some rd =>
      if rd.url = none then resetRecordingState bg
      else { bg with
        recordingData := some rd
        isRecording := false
        isPaused := false }

/-- C10.  A successful stopRecording response from the offscreen pipeline
never contains the final artifact: it carries success and a message with
no recordingData, so the background assignment of recordingData from the
stop response always assigns an absent value (both into recordingState and
into its own response), and the authoritative recordingData is populated
only by the recordingComplete handler once valid data arrives. -/
theorem stop_response_no_artifact (s : OffState) (nowMs : Nat) (bg : BgState)
    (hs : s.isRecording = true) (hm : ¬ s.refs.mediaRecorder = none)
    (ha : ¬ s.refs.audioRecorder = none) (hb : bg.isRecording = true)
    (rd : RecordingData) (hrd : ¬ rd.url = none) :
    (stopRecordingOffscreen s nowMs).1.success = true ∧
      (stopRecordingOffscreen s nowMs).1.message = some "Recording stopped" ∧
      (stopRecordingOffscreen s nowMs).1.recordingData = none ∧
      (handleStopRecordingBg bg
          (stopRecordingOffscreen s nowMs).1).1.recordingData = none ∧
      (handleStopRecordingBg bg
          (stopRecordingOffscreen s nowMs).1).2.recordingData = none ∧
      (handleRecordingCompleteBg
          (handleStopRecordingBg bg (stopRecordingOffscreen s nowMs).1).1
          (some rd)).recordingData = some rd := by
  have hresp : (stopRecordingOffscreen s nowMs).1.success = true ∧
      (stopRecordingOffscreen s nowMs).1.message = some "Recording stopped" ∧
      (stopRecordingOffscreen s nowMs).1.recordingData = none := by
    simp [stopRecordingOffscreen, hs, hm, ha]
  refine ⟨hresp.1, hresp.2.1, hresp.2.2, ?_, ?_, ?_⟩ <;>
    simp [handleStopRecordingBg, handleRecordingCompleteBg,
      resetRecordingState, hb, hresp.1, hresp.2.2, hrd]

/-- The background state of a live recording started on tab 5. -/
def bgRecEx : BgState := startFinish (startPhase1 bgInit optsEx true).2 true 2000

/-- A valid recordingData artifact as delivered by recordingComplete. -/
def rdEx10 : RecordingData :=
  { url := some 3
    size := 10
    duration := 2
    audioUrl := some 4
    audioSize := 5 }

/-- Witness for C10 at a concrete mid-recording offscreen state and a live
background state. -/
theorem stop_response_no_artifact_witness :
    (offErrEx.isRecording = true ∧ bgRecEx.isRecording = true) ∧
      (stopRecordingOffscreen offErrEx 9000).1.success = true ∧
      (stopRecordingOffscreen offErrEx 9000).1.recordingData = none ∧
      (handleRecordingCompleteBg
          (handleStopRecordingBg bgRecEx
            (stopRecordingOffscreen offErrEx 9000).1).1
          (some rdEx10)).recordingData = some rdEx10 := by
  have h := stop_response_no_artifact offErrEx 9000 bgRecEx (by decide)
    (by decide) (by decide) (by decide) rdEx10 (by decide)
  exact ⟨⟨by decide, by decide⟩, h.1, h.2.2.1, h.2.2.2.2.2⟩

end TabRec
